import Mathlib

/-!
Verification of the DeepCode backend (src-tauri/src/main.rs).

The program exposes three Tauri commands:
  - open_folder_dialog : native directory picker, returns the chosen path
    or none on cancellation, inside an always-Ok result;
  - read_file_content : reads a file to a UTF-8 string, stringifying errors;
  - get_file_tree / build_file_tree : recursively builds a FileEntry tree,
    skipping entries named with a leading dot, node_modules, or target,
    swallowing per-child build errors and propagating stat, read_dir and
    iterator-entry errors.

The filesystem is modelled as an inductive value describing exactly what
the OS calls return along the traversal: the stat outcome at a path, the
read_dir outcome on a directory, and the sequence of iterator items, each
of which is either an error or a named entry whose own stat outcome is
carried inside.  Paths are component lists; rendering joins components
with a slash, so the absolute path /proj is the list [given root
components], e.g. ["", "proj"].  read_dir never yields the dot or
dot-dot entries, so component names are treated as opaque strings.
-/

/-- A path is its list of components; an absolute path such as /proj is
["", "proj"] so that rendering with a slash separator reproduces the
original text. -/
abbrev FsPath := List String

/-- Rendering of a path as text, mirroring to_string_lossy on a PathBuf
built from slash-joined components. -/
def pathStr (p : FsPath) : String := String.intercalate "/" p

/-- Last path component as a string, mirroring
path.file_name().map(to_string_lossy).unwrap_or(""). -/
def fileNameStr (p : FsPath) : String := p.getLast?.getD ""

/-- The filter test of build_file_tree: hidden names and the two special
directory names, exactly as in the source.  Rust starts_with on strings
is the prefix test, stated here on the character lists so that it
evaluates by reduction. -/
def badName (s : String) : Bool :=
  ".".data.isPrefixOf s.data || s == "node_modules" || s == "target"

/-- The FileEntry struct of the source: name, path, is_directory,
children (absent for non-directories). -/
inductive FileEntry : Type where
  | mk (name : String) (path : String) (is_directory : Bool)
      (children : Option (List FileEntry)) : FileEntry


/-- Field accessor for name. -/
def FileEntry.name : FileEntry → String
  | .mk n _ _ _ => n

/-- Field accessor for path. -/
def FileEntry.path : FileEntry → String
  | .mk _ p _ _ => p

/-- Field accessor for is_directory. -/
def FileEntry.is_directory : FileEntry → Bool
  | .mk _ _ d _ => d

/-- Field accessor for children. -/
def FileEntry.children : FileEntry → Option (List FileEntry)
  | .mk _ _ _ c => c

/-- One item produced by the read_dir iterator: either the iterator
yields an error for this entry (entry_result is Err), or it yields a
directory entry with a file name, whose own stat outcome (the metadata
call made by the recursive build) is carried in the Except. -/
inductive DirItem (α : Type) : Type where
  | fail (e : String) : DirItem α
  | entry (name : String) (stat : Except String α) : DirItem α


/-- The filesystem object found at a path once its stat has succeeded:
a plain file, a directory whose read_dir call fails with a message, or a
directory whose read_dir call yields the given items in order. -/
inductive FSNode : Type where
  | file : FSNode
  | dirFail (e : String) : FSNode
  | dir (items : List (DirItem FSNode)) : FSNode


/-- metadata.is_dir() for a stat that succeeded: true unless the object
is a plain file (read_dir failure happens after the stat). -/
def statIsDir : FSNode → Bool
  | .file => false
  | .dirFail _ => true
  | .dir _ => true

mutual

/-- build_file_tree from the source.  The first argument is the path the
function is called on; the second is the outcome of the metadata call on
that path.  A stat error propagates; otherwise the node is built. -/
def build_file_tree (p : FsPath) : Except String FSNode → Except String FileEntry
  | .error e => .error e
  | .ok node => buildNode p node

/-- Body of build_file_tree after the stat succeeded: a file gives a
leaf with no children; a read_dir failure propagates; a listing is
folded over by buildChildren. -/
def buildNode (p : FsPath) : FSNode → Except String FileEntry
  | .file => .ok (.mk (fileNameStr p) (pathStr p) false none)
  | .dirFail e => .error e
  | .dir items =>
    match buildChildren p items with
    | .error e => .error e
    | .ok cs => .ok (.mk (fileNameStr p) (pathStr p) true (some cs))

/-- The for loop of build_file_tree over the iterator items: an
entry_result error propagates via the question-mark operator; a filtered
name is skipped; otherwise the child is built recursively, a failure
only logged (the child omitted), a success pushed. -/
def buildChildren (p : FsPath) : List (DirItem FSNode) → Except String (List FileEntry)
  | [] => .ok []
  | .fail e :: _ => .error e
  | .entry name stat :: rest =>
    if badName (fileNameStr (p ++ [name])) then
      buildChildren p rest
    else
      match build_file_tree (p ++ [name]) stat with
      | .ok fe =>
        match buildChildren p rest with
        | .error e => .error e
        | .ok cs => .ok (fe :: cs)
      | .error _ => buildChildren p rest

end

/-- An OS level I/O error as seen by the facade commands: an opaque
payload whose rendering to text is its message. -/
structure OsError : Type where
  msg : String

/-- The rendering e.to_string() of an OS error. -/
def OsError.render (e : OsError) : String := e.msg

/-- read_file_content from the source: the OS primitive
std::fs::read_to_string is an external collaborator, so its outcome on
the given path is the argument; the command forwards a success unchanged
and stringifies an error. -/
def read_file_content (osRead : Except OsError String) : Except String String :=
  match osRead with
  | .ok s => .ok s
  | .error e => .error e.render

/-- open_folder_dialog from the source: the native picker is an external
collaborator, so its outcome (the chosen path, or none on cancellation)
is the argument; the command wraps the rendered path in Ok
unconditionally. -/
def open_folder_dialog (picked : Option FsPath) : Except String (Option String) :=
  Except.ok (picked.map pathStr)

mutual

/-- Every node of this subtree, the root of the subtree included, has a
name that is not filtered (does not start with a dot, is not
node_modules, is not target). -/
def subtreeOk : FileEntry → Bool
  | .mk n _ _ cs => !badName n && childrenOptOk cs

/-- subtreeOk over an optional children list. -/
def childrenOptOk : Option (List FileEntry) → Bool
  | none => true
  | some cs => childListOk cs

/-- subtreeOk over a children list. -/
def childListOk : List FileEntry → Bool
  | [] => true
  | c :: cs => subtreeOk c && childListOk cs

end

mutual

/-- Every node of this subtree has children present exactly when
is_directory is true. -/
def shapeOk : FileEntry → Bool
  | .mk _ _ d cs => (cs.isSome == d) && shapeChildrenOptOk cs

/-- shapeOk over an optional children list. -/
def shapeChildrenOptOk : Option (List FileEntry) → Bool
  | none => true
  | some cs => shapeListOk cs

/-- shapeOk over a children list. -/
def shapeListOk : List FileEntry → Bool
  | [] => true
  | c :: cs => shapeOk c && shapeListOk cs

end

/-- The concrete listing of the /proj scenario: a.txt, .hidden,
node_modules and src, where src contains b.txt. -/
def projListing : List (DirItem FSNode) :=
  [ .entry "a.txt" (.ok .file),
    .entry ".hidden" (.ok .file),
    .entry "node_modules" (.ok (.dir [])),
    .entry "src" (.ok (.dir [ .entry "b.txt" (.ok .file) ])) ]

example : build_file_tree ["", "proj"] (.error "no such file") = .error "no such file" := rfl

example : build_file_tree ["", "a.txt"] (.ok .file)
    = .ok (.mk "a.txt" "/a.txt" false none) := rfl

mutual

/-- Structural facts about every successful build: the node fields come
from the call path and the stat outcome, all strictly lower nodes have
unfiltered names, and children presence matches is_directory throughout
the tree. -/
theorem build_stat_spec (p : FsPath) (s : Except String FSNode) (fe : FileEntry)
    (h : build_file_tree p s = .ok fe) :
    fe.name = fileNameStr p ∧ fe.path = pathStr p ∧
    childrenOptOk fe.children = true ∧ shapeOk fe = true ∧
    ∀ node, s = .ok node → fe.is_directory = statIsDir node := by
  match s with
  | .error e => simp [build_file_tree] at h
  | .ok node =>
    have hn := build_node_spec p node fe (by simpa [build_file_tree] using h)
    exact ⟨hn.1, hn.2.1, hn.2.2.1, hn.2.2.2.1, by
      intro node2 hq
      cases hq
      exact hn.2.2.2.2⟩

/-- Structural facts about a successful build once the stat succeeded. -/
theorem build_node_spec (p : FsPath) (node : FSNode) (fe : FileEntry)
    (h : buildNode p node = .ok fe) :
    fe.name = fileNameStr p ∧ fe.path = pathStr p ∧
    childrenOptOk fe.children = true ∧ shapeOk fe = true ∧
    fe.is_directory = statIsDir node := by
  match node with
  | .file =>
    have : fe = .mk (fileNameStr p) (pathStr p) false none := by
      simpa [buildNode] using h.symm
    subst this
    simp [FileEntry.name, FileEntry.path, FileEntry.children, FileEntry.is_directory,
      childrenOptOk, shapeOk, shapeChildrenOptOk, statIsDir]
  | .dirFail e => simp [buildNode] at h
  | .dir items =>
    rw [buildNode] at h
    match hc : buildChildren p items with
    | .error e => rw [hc] at h; simp at h
    | .ok cs =>
      rw [hc] at h
      simp at h
      have hcs := build_children_spec p items cs hc
      subst h
      simp [FileEntry.name, FileEntry.path, FileEntry.children, FileEntry.is_directory,
        childrenOptOk, shapeOk, shapeChildrenOptOk, statIsDir, hcs.1, hcs.2]

/-- Structural facts about the children collected from a listing: every
collected subtree has only unfiltered names, and children presence
matches is_directory throughout. -/
theorem build_children_spec (p : FsPath) (items : List (DirItem FSNode))
    (cs : List FileEntry) (h : buildChildren p items = .ok cs) :
    childListOk cs = true ∧ shapeListOk cs = true := by
  match items with
  | [] =>
    have : cs = [] := by simpa [buildChildren] using h.symm
    subst this
    simp [childListOk, shapeListOk]
  | .fail e :: rest => simp [buildChildren] at h
  | .entry name stat :: rest =>
    rw [buildChildren] at h
    by_cases hb : badName (fileNameStr (p ++ [name])) = true
    · rw [if_pos hb] at h
      exact build_children_spec p rest cs h
    · rw [if_neg hb] at h
      match hcb : build_file_tree (p ++ [name]) stat with
      | .error e =>
        rw [hcb] at h
        exact build_children_spec p rest cs h
      | .ok fe =>
        rw [hcb] at h
        match hrest : buildChildren p rest with
        | .error e => rw [hrest] at h; simp at h
        | .ok cs2 =>
          rw [hrest] at h
          simp at h
          subst h
          have hfe := build_stat_spec (p ++ [name]) stat fe hcb
          have hrest2 := build_children_spec p rest cs2 hrest
          have hname : fe.name = fileNameStr (p ++ [name]) := hfe.1
          constructor
          · have : subtreeOk fe = true := by
              match fe with
              | .mk n pa d cc =>
                simp [subtreeOk]
                refine ⟨?_, ?_⟩
                · have : n = fileNameStr (p ++ [name]) := hname
                  rw [this]
                  simpa using hb
                · simpa [FileEntry.children] using hfe.2.2.1
            simp [childListOk, this, hrest2.1]
          · simp [shapeListOk, hfe.2.2.2.1, hrest2.2]

end

/-- The root constraint packed inside shapeOk: children presence equals
the is_directory flag. -/
theorem shapeOk_root (fe : FileEntry) (h : shapeOk fe = true) :
    (FileEntry.children fe).isSome = FileEntry.is_directory fe := by
  match fe with
  | .mk n pa d cc =>
    simp [shapeOk] at h
    simpa [FileEntry.children, FileEntry.is_directory] using h.1

/-- A list item whose recursive build fails contributes nothing: the
loop behaves as if the item were absent (it is either filtered out by
name, or its build error is only logged and the child skipped). -/
theorem buildChildren_skip (p : FsPath) (name : String) (stat : Except String FSNode)
    (rest : List (DirItem FSNode)) (e : String)
    (hchild : build_file_tree (p ++ [name]) stat = .error e) :
    buildChildren p (.entry name stat :: rest) = buildChildren p rest := by
  rw [buildChildren]
  by_cases hb : badName (fileNameStr (p ++ [name])) = true
  · rw [if_pos hb]
  · rw [if_neg hb, hchild]

/-- The loop is a left-to-right fold, so listings sharing a prefix and
with equal continuations give equal results. -/
theorem buildChildren_congr_suffix (p : FsPath) (pre l1 l2 : List (DirItem FSNode))
    (h : buildChildren p l1 = buildChildren p l2) :
    buildChildren p (pre ++ l1) = buildChildren p (pre ++ l2) := by
  induction pre with
  | nil => simpa using h
  | cons i pre ih =>
    match i with
    | .fail e => simp [buildChildren]
    | .entry name stat =>
      rw [List.cons_append, List.cons_append, buildChildren, buildChildren]
      by_cases hb : badName (fileNameStr (p ++ [name])) = true
      · rw [if_pos hb, if_pos hb, ih]
      · rw [if_neg hb, if_neg hb]
        match build_file_tree (p ++ [name]) stat with
        | .error e => exact ih
        | .ok fe => rw [ih]

/-- If no item of the listing is an iterator error, the loop always
succeeds, whatever the outcomes of the recursive child builds. -/
theorem buildChildren_ok_of_noFail (p : FsPath) (items : List (DirItem FSNode))
    (h : ∀ e, DirItem.fail e ∉ items) :
    ∃ cs, buildChildren p items = .ok cs := by
  induction items with
  | nil => exact ⟨[], rfl⟩
  | cons i rest ih =>
    have hrest : ∀ e, DirItem.fail e ∉ rest := by
      intro e he
      exact h e (List.mem_cons_of_mem _ he)
    obtain ⟨cs, hcs⟩ := ih hrest
    match i with
    | .fail e => exact absurd (List.mem_cons_self _ _) (h e)
    | .entry name stat =>
      rw [buildChildren]
      by_cases hb : badName (fileNameStr (p ++ [name])) = true
      · rw [if_pos hb]; exact ⟨cs, hcs⟩
      · rw [if_neg hb]
        match build_file_tree (p ++ [name]) stat with
        | .error e => exact ⟨cs, hcs⟩
        | .ok fe => rw [hcs]; exact ⟨fe :: cs, rfl⟩

/-- Once the iterator yields an error item, the loop aborts with that
error, provided no earlier item was itself an iterator error. -/
theorem buildChildren_iterFail (p : FsPath) (pre post : List (DirItem FSNode)) (e : String)
    (hpre : ∀ e0, DirItem.fail e0 ∉ pre) :
    buildChildren p (pre ++ .fail e :: post) = .error e := by
  induction pre with
  | nil => simp [buildChildren]
  | cons i pre ih =>
    have hpre2 : ∀ e0, DirItem.fail e0 ∉ pre := by
      intro e0 he
      exact hpre e0 (List.mem_cons_of_mem _ he)
    match i with
    | .fail e0 => exact absurd (List.mem_cons_self _ _) (hpre e0)
    | .entry name stat =>
      rw [List.cons_append, buildChildren]
      by_cases hb : badName (fileNameStr (p ++ [name])) = true
      · rw [if_pos hb]; exact ih hpre2
      · rw [if_neg hb]
        match build_file_tree (p ++ [name]) stat with
        | .error e1 => exact ih hpre2
        | .ok fe => rw [ih hpre2]

/-- C1: a failure of the read_dir call on the directory itself makes
build fail with that error, while a failing recursive build of one
specific child leaves the result exactly as if that child were absent,
and the build of the directory still succeeds when the iterator itself
yields no error item. -/
theorem c1_error_policy_asymmetry (p : FsPath) (e : String) (name : String)
    (stat : Except String FSNode) (pre post : List (DirItem FSNode))
    (hiter : ∀ e0, DirItem.fail e0 ∉ pre ++ post)
    (hchild : build_file_tree (p ++ [name]) stat = .error e) :
    build_file_tree p (.ok (.dirFail e)) = .error e ∧
    build_file_tree p (.ok (.dir (pre ++ .entry name stat :: post)))
      = build_file_tree p (.ok (.dir (pre ++ post))) ∧
    ∃ fe, build_file_tree p (.ok (.dir (pre ++ .entry name stat :: post)))
      = .ok fe := by
  have hskip : buildChildren p (.entry name stat :: post) = buildChildren p post :=
    buildChildren_skip p name stat post e hchild
  have heq : buildChildren p (pre ++ .entry name stat :: post)
      = buildChildren p (pre ++ post) :=
    buildChildren_congr_suffix p pre (.entry name stat :: post) post hskip
  obtain ⟨cs, hcs⟩ := buildChildren_ok_of_noFail p (pre ++ post) hiter
  refine ⟨rfl, ?_, ?_⟩
  · rw [build_file_tree, build_file_tree, buildNode, buildNode, heq]
  · rw [build_file_tree, buildNode, heq, hcs]
    exact ⟨.mk (fileNameStr p) (pathStr p) true (some cs), rfl⟩

/-- C1 witness at a concrete input: a directory with a single child
whose stat fails. -/
theorem c1_error_policy_asymmetry_witness :
    build_file_tree ["", "d"] (.ok (.dirFail "boom")) = .error "boom" ∧
    build_file_tree ["", "d"] (.ok (.dir [.entry "x" (.error "boom")]))
      = build_file_tree ["", "d"] (.ok (.dir [])) ∧
    ∃ fe, build_file_tree ["", "d"] (.ok (.dir [.entry "x" (.error "boom")]))
      = .ok fe :=
  c1_error_policy_asymmetry ["", "d"] "boom" "x" (.error "boom") [] []
    (by intro e0; simp) rfl

/-- C2 counterexample: build called directly on a path whose last
component starts with a dot succeeds, and the root node of the returned
tree has that dotted name, so the tree does contain a node whose name
starts with a dot. -/
theorem c2_counterexample :
    build_file_tree [".hidden"] (Except.ok FSNode.file)
      = Except.ok (FileEntry.mk ".hidden" ".hidden" false none) ∧
    badName (FileEntry.name (FileEntry.mk ".hidden" ".hidden" false none)) = true :=
  ⟨rfl, by decide⟩

/-- C2 amended: on every successful build, every node strictly below
the root (every element of any children list, at every depth) has a
name that does not start with a dot and is neither node_modules nor
target; the root node itself is not filtered. -/
theorem c2_filter_below_root (p : FsPath) (s : Except String FSNode) (fe : FileEntry)
    (h : build_file_tree p s = .ok fe) :
    childrenOptOk (FileEntry.children fe) = true :=
  (build_stat_spec p s fe h).2.2.1

/-- C2 witness at a concrete input: a directory holding a dotted entry
and a plain entry. -/
theorem c2_filter_below_root_witness :
    childrenOptOk (FileEntry.children (FileEntry.mk "proj" "/proj" true
      (some [FileEntry.mk "a" "/proj/a" false none]))) = true :=
  c2_filter_below_root ["", "proj"]
    (.ok (.dir [.entry ".git" (.ok .file), .entry "a" (.ok .file)]))
    (FileEntry.mk "proj" "/proj" true (some [FileEntry.mk "a" "/proj/a" false none]))
    rfl

/-- C3: in every successful build the children field is present exactly
when is_directory holds, at every node of the tree; the root is a
directory node with Some children (possibly empty) when the stat said
directory, and a leaf with no children when it said file. -/
theorem c3_children_iff_directory (p : FsPath) (node : FSNode) (fe : FileEntry)
    (h : build_file_tree p (.ok node) = .ok fe) :
    shapeOk fe = true ∧
    FileEntry.is_directory fe = statIsDir node ∧
    (statIsDir node = true → ∃ cs, FileEntry.children fe = some cs) ∧
    (statIsDir node = false → FileEntry.children fe = none) := by
  have hs := build_stat_spec p (.ok node) fe h
  have hdir : FileEntry.is_directory fe = statIsDir node := hs.2.2.2.2 node rfl
  have hshape := hs.2.2.2.1
  have hroot := shapeOk_root fe hshape
  refine ⟨hshape, hdir, ?_, ?_⟩
  · intro hd
    have hsome : (FileEntry.children fe).isSome = true := by rw [hroot, hdir, hd]
    exact Option.isSome_iff_exists.mp hsome
  · intro hd
    have hnone : (FileEntry.children fe).isSome = false := by rw [hroot, hdir, hd]
    cases hcc : FileEntry.children fe with
    | none => rfl
    | some cs => rw [hcc] at hnone; simp at hnone

/-- C3 witness at a concrete input: an empty directory. -/
theorem c3_children_iff_directory_witness :
    shapeOk (FileEntry.mk "proj" "/proj" true (some [])) = true ∧
    FileEntry.is_directory (FileEntry.mk "proj" "/proj" true (some []))
      = statIsDir (FSNode.dir []) ∧
    (statIsDir (FSNode.dir []) = true →
      ∃ cs, FileEntry.children (FileEntry.mk "proj" "/proj" true (some [])) = some cs) ∧
    (statIsDir (FSNode.dir []) = false →
      FileEntry.children (FileEntry.mk "proj" "/proj" true (some [])) = none) :=
  c3_children_iff_directory ["", "proj"] (FSNode.dir [])
    (FileEntry.mk "proj" "/proj" true (some [])) rfl

/-- C4: a stat failure on the argument path makes build fail at once
with that error, and no FileEntry of any kind is returned. -/
theorem c4_stat_failure_propagates (p : FsPath) (e : String) :
    build_file_tree p (.error e) = .error e ∧
    ∀ fe, build_file_tree p (.error e) ≠ Except.ok fe := by
  refine ⟨rfl, ?_⟩
  intro fe h
  simp [build_file_tree] at h

/-- C4 witness at a concrete input: a missing path. -/
theorem c4_stat_failure_propagates_witness :
    build_file_tree ["", "missing"] (.error "no such file") = .error "no such file" ∧
    build_file_tree ["", "missing"] (.error "no such file")
      ≠ Except.ok (FileEntry.mk "missing" "/missing" false none) :=
  ⟨(c4_stat_failure_propagates ["", "missing"] "no such file").1,
   (c4_stat_failure_propagates ["", "missing"] "no such file").2
     (FileEntry.mk "missing" "/missing" false none)⟩

/-- C5: on every successful build the root node carries the last
component of the call path as name (empty when there is none), the
rendered path text, and the directory classification of the stat. -/
theorem c5_root_fields (p : FsPath) (node : FSNode) (fe : FileEntry)
    (h : build_file_tree p (.ok node) = .ok fe) :
    FileEntry.name fe = fileNameStr p ∧
    FileEntry.path fe = pathStr p ∧
    FileEntry.is_directory fe = statIsDir node := by
  have hs := build_stat_spec p (.ok node) fe h
  exact ⟨hs.1, hs.2.1, hs.2.2.2.2 node rfl⟩

/-- C5 witness at a concrete input: a plain file. -/
theorem c5_root_fields_witness :
    FileEntry.name (FileEntry.mk "a.txt" "/a.txt" false none) = fileNameStr ["", "a.txt"] ∧
    FileEntry.path (FileEntry.mk "a.txt" "/a.txt" false none) = pathStr ["", "a.txt"] ∧
    FileEntry.is_directory (FileEntry.mk "a.txt" "/a.txt" false none)
      = statIsDir FSNode.file :=
  c5_root_fields ["", "a.txt"] FSNode.file (FileEntry.mk "a.txt" "/a.txt" false none) rfl

/-- C6: the build result is a function of the call path and of the
filesystem snapshot alone, so two successful builds against the same
unchanged snapshot return identical trees. -/
theorem c6_deterministic (p : FsPath) (s : Except String FSNode) (fe1 fe2 : FileEntry)
    (h1 : build_file_tree p s = .ok fe1) (h2 : build_file_tree p s = .ok fe2) :
    fe1 = fe2 := by
  rw [h1] at h2
  simpa using h2

/-- C6 witness at a concrete input: a plain file built twice. -/
theorem c6_deterministic_witness :
    FileEntry.mk "a" "/a" false none = FileEntry.mk "a" "/a" false none :=
  c6_deterministic ["", "a"] (.ok .file)
    (FileEntry.mk "a" "/a" false none) (FileEntry.mk "a" "/a" false none) rfl rfl

/-- C7: the /proj scenario. The build succeeds, its children are
exactly a.txt and src (the latter containing exactly b.txt), in listing
order, and neither .hidden nor node_modules appears anywhere. -/
theorem c7_proj_scenario :
    build_file_tree ["", "proj"] (.ok (.dir projListing))
      = .ok (.mk "proj" "/proj" true (some
          [ .mk "a.txt" "/proj/a.txt" false none,
            .mk "src" "/proj/src" true
              (some [ .mk "b.txt" "/proj/src/b.txt" false none ]) ])) := rfl

/-- C8: read_file_content forwards the full contents on success,
stringifies every OS failure, and on a failing read with a non-empty
message (such as a missing path) returns an error with a non-empty
message, never an empty success. -/
theorem c8_read_file_content_errors :
    (∀ s, read_file_content (Except.ok s) = Except.ok s) ∧
    (∀ e, read_file_content (Except.error e) = Except.error (OsError.render e)) ∧
    (∀ e, OsError.render e ≠ "" →
      read_file_content (Except.error e) ≠ Except.ok "" ∧
      ∃ m, read_file_content (Except.error e) = Except.error m ∧ m ≠ "") := by
  refine ⟨fun s => rfl, fun e => rfl, fun e he => ⟨?_, OsError.render e, rfl, he⟩⟩
  intro h
  simp [read_file_content] at h

/-- C8 witness at a concrete input: the OS message for a missing
path. -/
theorem c8_read_file_content_errors_witness :
    read_file_content (Except.error (OsError.mk "No such file or directory (os error 2)"))
      ≠ Except.ok "" ∧
    read_file_content (Except.error (OsError.mk "No such file or directory (os error 2)"))
      = Except.error (OsError.render (OsError.mk "No such file or directory (os error 2)")) :=
  ⟨(c8_read_file_content_errors.2.2 (OsError.mk "No such file or directory (os error 2)")
      (by decide)).1,
   c8_read_file_content_errors.2.1 (OsError.mk "No such file or directory (os error 2)")⟩

/-- C9: the folder dialog returns the chosen path on selection, an
explicit none on cancellation, and never an error result. -/
theorem c9_dialog_never_errors :
    (∀ p, open_folder_dialog (some p) = Except.ok (some (pathStr p))) ∧
    open_folder_dialog none = Except.ok none ∧
    ∀ o e, open_folder_dialog o ≠ Except.error e := by
  refine ⟨fun p => rfl, rfl, ?_⟩
  intro o e h
  simp [open_folder_dialog] at h

/-- C9 witness at a concrete input: a selected path and a
cancellation. -/
theorem c9_dialog_never_errors_witness :
    open_folder_dialog (some ["", "proj"]) = Except.ok (some (pathStr ["", "proj"])) ∧
    open_folder_dialog none = Except.ok none ∧
    open_folder_dialog none ≠ Except.error "cancelled" :=
  ⟨c9_dialog_never_errors.1 ["", "proj"], c9_dialog_never_errors.2.1,
   c9_dialog_never_errors.2.2 none "cancelled"⟩

/-- C10: an error yielded by the directory iterator for one individual
entry fails the whole build of that directory with that error (once
reached: no earlier item of the listing is itself an iterator error),
rather than being skipped. -/
theorem c10_iterator_error_fails_directory (p : FsPath) (pre post : List (DirItem FSNode))
    (e : String) (hpre : ∀ e0, DirItem.fail e0 ∉ pre) :
    build_file_tree p (.ok (.dir (pre ++ .fail e :: post))) = .error e := by
  rw [build_file_tree, buildNode, buildChildren_iterFail p pre post e hpre]

/-- C10 witness at a concrete input: a listing holding only an iterator
error item. -/
theorem c10_iterator_error_fails_directory_witness :
    build_file_tree ["", "d"] (.ok (.dir [.fail "io error"])) = .error "io error" :=
  c10_iterator_error_fails_directory ["", "d"] [] [] "io error" (by intro e0; simp)
